import Mathlib

/-!
Shallow embedding of the NuGet dependency-graph core (TypeScript sources:
`src/services/assetManager.ts` (DotNetCliService), `src/services/cacheManager.ts`
(CacheManager, ProjectFileParser), `src/providers/nugetDependencyProvider.ts`
(NuGetDependencyProvider)) together with theorems settling the frozen claims.

JavaScript strings are Lean `String`s; the JS string operations used by the
sources (`toLowerCase`, `trim`, `includes`, `startsWith`, `split`, `substring`)
are re-implemented below over `String.data` so that they are executable in the
kernel. Wall-clock `Date` values are modelled as `Nat` millisecond timestamps
passed explicitly. Fallible code (`throw`) is modelled with `Except`; mutation
of the in-memory cache, of the persistent cache directory, and of the package
array in the vulnerability merge is modelled by explicit state passing.
-/

namespace NuGetGraph

/-! ## JS string primitives (re-implemented so they reduce in the kernel) -/

/-- JS `String.prototype.toLowerCase` restricted to the character-wise case
mapping used by the sources. -/
def strLower (s : String) : String := String.mk (s.data.map Char.toLower)

/-- Whitespace test matching the JS `\s` class on the characters that occur in
toolchain output (space, tab, newline, carriage return). -/
def chIsWs (c : Char) : Bool := c = ' ' || c = '\t' || c = '\n' || c = '\r'

/-- JS `String.prototype.trim`. -/
def strTrim (s : String) : String :=
  String.mk (((s.data.dropWhile chIsWs).reverse.dropWhile chIsWs).reverse)

/-- Helper for `strContains`: tests whether `pat` occurs contiguously inside
the second character list. -/
def charsContain (pat : List Char) : List Char → Bool
  | [] => pat.isEmpty
  | c :: rest => pat.isPrefixOf (c :: rest) || charsContain pat rest

/-- JS `String.prototype.includes`. -/
def strContains (s pat : String) : Bool := charsContain pat.data s.data

/-- JS `String.prototype.startsWith`. -/
def strStartsWith (s pat : String) : Bool := pat.data.isPrefixOf s.data

/-- JS `s.substring 1` (drop the first character). -/
def strDropOne (s : String) : String := String.mk (s.data.drop 1)

/-- Splits on a single character, keeping empty fields, as JS
`String.prototype.split` with a one-character separator does. -/
def splitCharAux (sep : Char) : List Char → List Char → List String
  | acc, [] => [String.mk acc.reverse]
  | acc, c :: rest =>
    if c = sep then String.mk acc.reverse :: splitCharAux sep [] rest
    else splitCharAux sep (c :: acc) rest

/-- JS `String.prototype.split` with a one-character separator string. -/
def strSplitChar (s : String) (sep : Char) : List String := splitCharAux sep [] s.data

/-- JS `String.prototype.split` with the regexp of one or more whitespace
characters, applied by the sources only to already-trimmed strings: on those
it never produces empty tokens, so it equals split-on-whitespace-characters
with empty tokens removed. -/
def strSplitWs (s : String) : List String :=
  ((s.data.splitOnP chIsWs).map String.mk).filter (fun t => t ≠ "")

/-- JS `a || b` for strings (first operand when non-empty, else second). -/
def strOrElse (a b : String) : String := if a = "" then b else a

/-- JS `a || b` where `a` is an optional string field (absent or empty falls
through to `b`). -/
def optStrOrElse (a : Option String) (b : String) : String :=
  match a with
  | some s => strOrElse s b
  | none => b

/-! ## Data model (from `src/types/dependency.ts`) -/

/-- Severity union type `Low or Moderate or High or Critical` of
`Vulnerability.severity`. -/
inductive Severity where
  | Low
  | Moderate
  | High
  | Critical
deriving DecidableEq, Repr

/-- The `Vulnerability` interface. -/
structure Vulnerability where
  id : String
  severity : Severity
  title : String
  description : Option String := none
  advisoryUrl : Option String := none
  cve : List String := []
  publishedDate : Option String := none
  lastModified : Option String := none
deriving DecidableEq, Repr

/-- The `NuGetPackage` interface. The optional recursive `dependencies` field
is omitted: none of the embedded operations (either parser, the toolchain
output walkers, the merge, or graph synthesis) ever reads or writes it. -/
structure NuGetPackage where
  id : String
  version : String
  resolved : Option String := none
  vulnerabilities : Option (List Vulnerability) := none
  isTransitive : Bool := false
  depth : Nat := 0
  framework : Option String := none
  source : Option String := none
  isDevelopmentDependency : Bool := false
deriving DecidableEq, Repr

/-- The `(id, version)` uniqueness key of a package, written `id@version` by
the sources. -/
def pkgKey (p : NuGetPackage) : String := p.id ++ "@" ++ p.version

/-- The `CommandResult` interface of `commandExecutor.ts` (the `command` and
`executionTime` fields are irrelevant to every claim and kept for shape). -/
structure CommandResult where
  stdout : String
  stderr : String
  exitCode : Int
  command : String := ""
  executionTime : Nat := 0
deriving DecidableEq, Repr

/-- Error category union of `ExtensionError.category`. -/
inductive ErrorCategory where
  | validation
  | analysis
  | visualization
  | system
deriving DecidableEq, Repr

/-! ## DotNetCliService error taxonomy (`assetManager.ts`) -/

/-- The `DotNetCliError` class: code, user message, technical details,
category and recoverability flag. -/
structure DotNetCliError where
  code : String
  userMessage : String
  technicalDetails : Option String := none
  category : ErrorCategory := .system
  recoverable : Bool := true
deriving DecidableEq, Repr

/-- Constant `DotNetCliErrorCodes.SDK_NOT_FOUND`. -/
def DotNetCliErrorCodes.SDK_NOT_FOUND : String := "DOTNET_SDK_NOT_FOUND"

/-- Constant `DotNetCliErrorCodes.SDK_VERSION_INCOMPATIBLE`. -/
def DotNetCliErrorCodes.SDK_VERSION_INCOMPATIBLE : String := "DOTNET_SDK_VERSION_INCOMPATIBLE"

/-- Constant `DotNetCliErrorCodes.PROJECT_NOT_FOUND`. -/
def DotNetCliErrorCodes.PROJECT_NOT_FOUND : String := "DOTNET_PROJECT_NOT_FOUND"

/-- Constant `DotNetCliErrorCodes.PROJECT_INVALID`. -/
def DotNetCliErrorCodes.PROJECT_INVALID : String := "DOTNET_PROJECT_INVALID"

/-- Constant `DotNetCliErrorCodes.RESTORE_FAILED`. -/
def DotNetCliErrorCodes.RESTORE_FAILED : String := "DOTNET_RESTORE_FAILED"

/-- Constant `DotNetCliErrorCodes.LIST_PACKAGES_FAILED`. -/
def DotNetCliErrorCodes.LIST_PACKAGES_FAILED : String := "DOTNET_LIST_PACKAGES_FAILED"

/-- Constant `DotNetCliErrorCodes.VULNERABILITY_SCAN_FAILED`. -/
def DotNetCliErrorCodes.VULNERABILITY_SCAN_FAILED : String := "DOTNET_VULNERABILITY_SCAN_FAILED"

/-- Constant `DotNetCliErrorCodes.TIMEOUT`. -/
def DotNetCliErrorCodes.TIMEOUT : String := "DOTNET_COMMAND_TIMEOUT"

/-- Constant `DotNetCliErrorCodes.PERMISSION_DENIED`. -/
def DotNetCliErrorCodes.PERMISSION_DENIED : String := "DOTNET_PERMISSION_DENIED"

/-- Constant `DotNetCliErrorCodes.NETWORK_ERROR`. -/
def DotNetCliErrorCodes.NETWORK_ERROR : String := "DOTNET_NETWORK_ERROR"

/-- Constant `DotNetCliErrorCodes.UNKNOWN_ERROR`. -/
def DotNetCliErrorCodes.UNKNOWN_ERROR : String := "DOTNET_UNKNOWN_ERROR"

namespace DotNetCliService

/-- `DotNetCliService.createDotNetError` (positional constructor wrapper). -/
def createDotNetError (code userMessage : String) (technicalDetails : Option String)
    (category : ErrorCategory) (recoverable : Bool) : DotNetCliError :=
  { code := code, userMessage := userMessage, technicalDetails := technicalDetails,
    category := category, recoverable := recoverable }

/-- `DotNetCliService.isNetworkError` applied to a string (the classifiers call
it on the combined, already lowercased output; JS `String(s)` on a string is
the identity, and `toLowerCase` is applied again inside). -/
def isNetworkError (s : String) : Bool :=
  let errorStr := strLower s
  strContains errorStr "network" ||
  strContains errorStr "connection" ||
  strContains errorStr "dns" ||
  strContains errorStr "enotfound" ||
  strContains errorStr "econnrefused" ||
  strContains errorStr "econnreset" ||
  strContains errorStr "unable to load the service index"

/-- `DotNetCliService.normalizeSeverity`: the JS guard
`!severity`, together with the typeof-string test, reduces for string input to the
empty-string test; then the lowercased and trimmed value is matched. -/
def normalizeSeverity (severity : String) : Severity :=
  if severity = "" then .Low
  else
    let normalized := strTrim (strLower severity)
    if normalized = "critical" then .Critical
    else if normalized = "high" then .High
    else if normalized = "moderate" then .Moderate
    else if normalized = "medium" then .Moderate
    else if normalized = "low" then .Low
    else .Low

/-! JSON output of `dotnet list package --format json`, already decoded from
text: `JSON.parse` is library code, so the embedding starts from the decoded
shape `projects[].frameworks[].topLevelPackages[]` and `transitivePackages[]`.
Fields that JS reads with truthiness checks are `Option`s, where `some ""` and
`none` are both falsy. -/

/-- One entry of `topLevelPackages` or `transitivePackages`. -/
structure JsonPackageEntry where
  id : Option String := none
  requestedVersion : Option String := none
  resolvedVersion : Option String := none
deriving DecidableEq, Repr

/-- One entry of `projects[].frameworks`. -/
structure JsonFramework where
  framework : Option String := none
  topLevelPackages : Option (List JsonPackageEntry) := none
  transitivePackages : Option (List JsonPackageEntry) := none
deriving DecidableEq, Repr

/-- One entry of `projects`. -/
structure JsonProject where
  frameworks : Option (List JsonFramework) := none
deriving DecidableEq, Repr

/-- Decoded JSON document consumed by `parseJsonOutput`. -/
structure JsonListOutput where
  projects : Option (List JsonProject) := none
deriving DecidableEq, Repr

/-- JS truthiness of an optional string field (`!pkg.id` skips absent and
empty ids). -/
def optStrTruthy (o : Option String) : Bool :=
  match o with
  | some s => s ≠ ""
  | none => false

/-- Packages contributed by one framework entry in `parseJsonOutput`: first
the `topLevelPackages` (direct, depth 0), then the `transitivePackages`
(transitive, depth 1), in source order. -/
def parseJsonFramework (fw : JsonFramework) : List NuGetPackage :=
  let frameworkName := optStrOrElse fw.framework "unknown"
  let tops := (fw.topLevelPackages.getD []).filterMap fun pkg =>
    if optStrTruthy pkg.id then
      some { id := pkg.id.getD "",
             version := optStrOrElse pkg.requestedVersion (optStrOrElse pkg.resolvedVersion "unknown"),
             resolved := pkg.resolvedVersion,
             isTransitive := false,
             depth := 0,
             framework := some frameworkName }
    else none
  let trans := (fw.transitivePackages.getD []).filterMap fun pkg =>
    if optStrTruthy pkg.id then
      some { id := pkg.id.getD "",
             version := optStrOrElse pkg.resolvedVersion "unknown",
             resolved := pkg.resolvedVersion,
             isTransitive := true,
             depth := 1,
             framework := some frameworkName }
    else none
  tops ++ trans

/-- `DotNetCliService.parseJsonOutput` on the decoded document. Projects with
an absent `frameworks` array are skipped; a missing or empty `projects` array
yields the empty list. Note that no deduplication is performed here. -/
def parseJsonOutput (out : JsonListOutput) : List NuGetPackage :=
  match out.projects with
  | none => []
  | some projects =>
    if projects.isEmpty then []
    else projects.flatMap fun proj =>
      match proj.frameworks with
      | none => []
      | some fws => fws.flatMap parseJsonFramework

/-- Packages contributed by one line in `parseTableOutput`: only trimmed lines
starting with the character `>` contribute; the remainder is split on runs of
whitespace into `(name, requested, resolved)`. Every produced package is
direct: `isTransitive := false`, `depth := 0`. -/
def parseTableLine (line : String) : List NuGetPackage :=
  let trimmed := strTrim line
  if strStartsWith trimmed ">" then
    let parts := strSplitWs (strTrim (strDropOne trimmed))
    match parts with
    | p0 :: p1 :: rest =>
      if p0 ≠ "" && p1 ≠ "" then
        [{ id := p0,
           version := p1,
           resolved := some (strOrElse (rest.headD "") p1),
           isTransitive := false,
           depth := 0 }]
      else []
    | _ => []
  else []

/-- `DotNetCliService.parseTableOutput`: split the output on newlines and
collect the packages of each line. -/
def parseTableOutput (output : String) : List NuGetPackage :=
  (strSplitChar output '\n').flatMap parseTableLine

/-- The combined, lowercased `stderr ++ " " ++ stdout` inspected by every
classifier. -/
def combinedOutput (result : CommandResult) : String :=
  strLower (result.stderr ++ " " ++ result.stdout)

/-- `DotNetCliService.handleListPackagesError`: classifies a non-zero exit of
the package-listing subcommand into the typed taxonomy and throws; the thrown
`DotNetCliError` is the return value here. -/
def handleListPackagesError (result : CommandResult) (projectPath : String) : DotNetCliError :=
  if strContains (combinedOutput result) "could not find project" ||
     strContains (combinedOutput result) "project file does not exist" then
    createDotNetError DotNetCliErrorCodes.PROJECT_NOT_FOUND
      ("Project file not found: " ++ projectPath ++
        ". Please ensure the project file exists and is accessible.")
      (some ("Command output: " ++ strOrElse result.stderr result.stdout)) .validation false
  else if strContains (combinedOutput result) "invalid project" ||
     strContains (combinedOutput result) "malformed" ||
     strContains (combinedOutput result) "xml" then
    createDotNetError DotNetCliErrorCodes.PROJECT_INVALID
      ("Invalid or corrupted project file: " ++ projectPath ++
        ". Please check the project file format.")
      (some ("Command output: " ++ strOrElse result.stderr result.stdout)) .validation true
  else if strContains (combinedOutput result) "access denied" ||
     strContains (combinedOutput result) "permission denied" ||
     strContains (combinedOutput result) "unauthorized" then
    createDotNetError DotNetCliErrorCodes.PERMISSION_DENIED
      ("Permission denied accessing project: " ++ projectPath ++
        ". Please check file permissions.")
      (some ("Command output: " ++ strOrElse result.stderr result.stdout)) .system true
  else if isNetworkError (combinedOutput result) then
    createDotNetError DotNetCliErrorCodes.NETWORK_ERROR
      "Network error while listing packages. Please check your internet connection and package sources."
      (some ("Command output: " ++ strOrElse result.stderr result.stdout)) .system true
  else
    createDotNetError DotNetCliErrorCodes.LIST_PACKAGES_FAILED
      "Failed to list packages. Please ensure the project is valid and the .NET SDK is properly configured."
      (some ("Exit code: " ++ toString result.exitCode ++ ", Output: " ++ strOrElse result.stderr result.stdout))
      .analysis true

/-- The textual no-findings match of `handleVulnerabilityScanError`: the
combined output indicates that the scan ran and found nothing. -/
def noVulnerabilitiesTextMatch (combined : String) : Bool :=
  strContains combined "no vulnerable packages found" ||
  strContains combined "no vulnerabilities found" ||
  strContains combined "no packages with known vulnerabilities"

/-- `DotNetCliService.handleVulnerabilityScanError`: on the documented textual
no-findings match the scan result is the valid empty list; every other
non-zero exit is classified and thrown. -/
def handleVulnerabilityScanError (result : CommandResult) (projectPath : String) :
    Except DotNetCliError (List NuGetPackage) :=
  if noVulnerabilitiesTextMatch (combinedOutput result) then .ok []
  else if strContains (combinedOutput result) "could not find project" ||
     strContains (combinedOutput result) "project file does not exist" then
    .error (createDotNetError DotNetCliErrorCodes.PROJECT_NOT_FOUND
      ("Project file not found: " ++ projectPath ++
        ". Please ensure the project file exists and is accessible.")
      (some ("Command output: " ++ strOrElse result.stderr result.stdout)) .validation false)
  else if isNetworkError (combinedOutput result) then
    .error (createDotNetError DotNetCliErrorCodes.NETWORK_ERROR
      "Network error during vulnerability scan. Please check your internet connection and try again."
      (some ("Command output: " ++ strOrElse result.stderr result.stdout)) .system true)
  else if strContains (combinedOutput result) "access denied" ||
     strContains (combinedOutput result) "permission denied" then
    .error (createDotNetError DotNetCliErrorCodes.PERMISSION_DENIED
      ("Permission denied accessing project: " ++ projectPath ++
        ". Please check file permissions.")
      (some ("Command output: " ++ strOrElse result.stderr result.stdout)) .system true)
  else
    .error (createDotNetError DotNetCliErrorCodes.VULNERABILITY_SCAN_FAILED
      "Failed to scan for vulnerabilities. Please ensure the project is valid and try again."
      (some ("Exit code: " ++ toString result.exitCode ++ ", Output: " ++ strOrElse result.stderr result.stdout))
      .analysis true)

/-- Core of `DotNetCliService.listVulnerablePackages` after the external
command completed: a non-zero exit goes through `handleVulnerabilityScanError`;
a zero exit parses the JSON stdout (`parseVulnerablePackagesOutput`, whose
decoded result is passed here as `parsedOutput` since JSON decoding is library
code). -/
def listVulnerablePackagesOutcome (result : CommandResult)
    (parsedOutput : List NuGetPackage) (projectPath : String) :
    Except DotNetCliError (List NuGetPackage) :=
  if result.exitCode ≠ 0 then handleVulnerabilityScanError result projectPath
  else .ok parsedOutput

end DotNetCliService

/-! ## ProjectFileParser (`cacheManager.ts`, second class in the file) -/

namespace ProjectFileParser

/-- Specific error type `ProjectFileError` of the manifest parser. -/
structure ProjectFileError where
  code : String
  userMessage : String
  technicalDetails : Option String := none
  category : ErrorCategory := .validation
  recoverable : Bool := true
deriving DecidableEq, Repr

/-- Accumulator loop of `deduplicatePackages`: `seen` is the set of already
emitted `id@version` keys. -/
def dedupGo (seen : List String) : List NuGetPackage → List NuGetPackage
  | [] => []
  | p :: rest =>
    let key := p.id ++ "@" ++ p.version
    if seen.contains key then dedupGo seen rest
    else p :: dedupGo (key :: seen) rest

/-- `ProjectFileParser.deduplicatePackages`: removes packages whose
`id@version` key already occurred, keeping the first occurrence. This is the
last step of `parseProjectFile`, applied to the concatenation of the packages
extracted from the project file and from `packages.config`. -/
def deduplicatePackages (packages : List NuGetPackage) : List NuGetPackage :=
  dedupGo [] packages

end ProjectFileParser

/-! ## NuGetDependencyProvider (`nugetDependencyProvider.ts`) -/

namespace NuGetDependencyProvider

/-- Graph rendering mode of `createGraphData` and the link builders. -/
inductive GraphMode where
  | dependencies
  | vulnerabilities
  | full
deriving DecidableEq, Repr

/-- The `GraphLink` interface: a pair of node keys plus weight and color. The
JS number weights 1 and 0.5 are rationals. -/
structure GraphLink where
  source : String
  target : String
  value : ℚ
  color : String
deriving DecidableEq, Repr

/-- The `package@version` composite node key used for `GraphNode.id` and for
link endpoints. -/
def nodeId (p : NuGetPackage) : String := p.id ++ "@" ++ p.version

/-- JS `s.split('.')[0]` (never out of range: `split` yields at least one
element). -/
def firstSegment (s : String) : String := (strSplitChar s '.').headD ""

/-- `NuGetDependencyProvider.hasCommonDependencyPattern`: known co-occurrence
substrings (case-sensitive `includes`). -/
def hasCommonDependencyPattern (pkg1Id pkg2Id : String) : Bool :=
  (strContains pkg1Id "EntityFramework" && strContains pkg2Id "EntityFramework") ||
  (strContains pkg1Id "AspNetCore" && strContains pkg2Id "AspNetCore") ||
  (strContains pkg1Id "Logging" && strContains pkg2Id "Logging") ||
  (strContains pkg1Id "Configuration" && strContains pkg2Id "Configuration")

/-- `NuGetDependencyProvider.shouldCreateLink`: heuristic predicate linking a
direct package to a transitive one. -/
def shouldCreateLink (directPkg transitivePkg : NuGetPackage) : Bool :=
  (strStartsWith directPkg.id "Microsoft." && strStartsWith transitivePkg.id "Microsoft.") ||
  (strStartsWith directPkg.id "System." && strStartsWith transitivePkg.id "System.") ||
  (firstSegment directPkg.id = firstSegment transitivePkg.id) ||
  hasCommonDependencyPattern directPkg.id transitivePkg.id

/-- `NuGetDependencyProvider.arePackagesRelated`: heuristic predicate linking
two transitive packages of the same vendor or family namespace. -/
def arePackagesRelated (pkg1 pkg2 : NuGetPackage) : Bool :=
  let pkg1Parts := strSplitChar pkg1.id '.'
  let pkg2Parts := strSplitChar pkg2.id '.'
  if pkg1Parts.headD "" = pkg2Parts.headD "" then true
  else if pkg1Parts.length ≥ 2 && pkg2Parts.length ≥ 2 &&
      pkg1Parts.headD "" = pkg2Parts.headD "" &&
      pkg1Parts.getD 1 "" = pkg2Parts.getD 1 "" then true
  else false

/-- Cross links among the transitive packages: the source iterates all pairs
`i < j` and links the related ones with weight 0.5. -/
def transPairLinks (mode : GraphMode) : List NuGetPackage → List GraphLink
  | [] => []
  | pkg1 :: rest =>
    (rest.filter (fun pkg2 => arePackagesRelated pkg1 pkg2)).map
      (fun pkg2 =>
        { source := nodeId pkg1, target := nodeId pkg2, value := 1/2,
          color := if mode = .vulnerabilities then "#ff6b6b" else "#ccc" }) ++
    transPairLinks mode rest

/-- `NuGetDependencyProvider.createFallbackLinks`: even-distribution star
topology, linking each direct package (by position) to a contiguous slice of
the transitive list. Links are only created when both a direct and a
transitive package exist. -/
def createFallbackLinks (packages : List NuGetPackage) (mode : GraphMode) : List GraphLink :=
  let directPackages := packages.filter (fun pkg => !pkg.isTransitive)
  let transitivePackages := packages.filter (fun pkg => pkg.isTransitive)
  if directPackages.length > 0 && transitivePackages.length > 0 then
    directPackages.enum.flatMap fun ie =>
      let index := ie.1
      let directPkg := ie.2
      let per := (transitivePackages.length + directPackages.length - 1) / directPackages.length
      let startIndex := index * per
      let endIndex := min (startIndex + per) transitivePackages.length
      ((transitivePackages.drop startIndex).take (endIndex - startIndex)).map fun transitivePkg =>
        { source := nodeId directPkg, target := nodeId transitivePkg, value := 1,
          color := if mode = .vulnerabilities then "#ff6b6b" else "#999" }
  else []

/-- Heuristic links from each direct package to each transitive package
satisfying `shouldCreateLink` (the first forEach loop of
`createSyntheticLinks`). -/
def directTransitiveLinks (packages : List NuGetPackage) (mode : GraphMode) : List GraphLink :=
  (packages.filter (fun pkg => !pkg.isTransitive)).flatMap fun directPkg =>
    ((packages.filter (fun pkg => pkg.isTransitive)).filter
        (fun transitivePkg => shouldCreateLink directPkg transitivePkg)).map
      fun transitivePkg =>
        { source := nodeId directPkg, target := nodeId transitivePkg, value := 1,
          color := if mode = .vulnerabilities then "#ff6b6b" else "#999" }

/-- `NuGetDependencyProvider.createSyntheticLinks`: heuristic direct-to-
transitive links, then transitive pair links; if none resulted and the list
has more than one package, the fallback links replace the empty list. -/
def createSyntheticLinks (packages : List NuGetPackage) (mode : GraphMode) : List GraphLink :=
  let links := directTransitiveLinks packages mode ++
    transPairLinks mode (packages.filter (fun pkg => pkg.isTransitive))
  if links.isEmpty && packages.length > 1 then createFallbackLinks packages mode
  else links

/-- One mutation step of `mergeVulnerabilityData`: `packages.find` locates the
first package whose `id` equals the vulnerable entry id and its
`vulnerabilities` field is assigned. -/
def setVulnerabilitiesOnFirstMatch (packages : List NuGetPackage) (pid : String)
    (vulns : List Vulnerability) : List NuGetPackage :=
  match packages with
  | [] => []
  | p :: rest =>
    if p.id = pid then { p with vulnerabilities := some vulns } :: rest
    else p :: setVulnerabilitiesOnFirstMatch rest pid vulns

/-- `NuGetDependencyProvider.mergeVulnerabilityData`: for each vulnerable
package carrying a `vulnerabilities` array (JS truthiness: present, possibly
empty), assign it to the first package with the same `id`. The JS in-place
array mutation is modelled by threading the updated list. -/
def mergeVulnerabilityData (packages vulnerablePackages : List NuGetPackage) :
    List NuGetPackage :=
  vulnerablePackages.foldl
    (fun acc vulnPkg =>
      match vulnPkg.vulnerabilities with
      | some vs => setVulnerabilitiesOnFirstMatch acc vulnPkg.id vs
      | none => acc)
    packages

/-- The analysis method recorded in `lastAnalysisMethod` and in the metadata
(union `dotnet-cli | project-file | hybrid | mock`). -/
inductive AnalysisMethod where
  | dotnetCli
  | projectFile
  | hybrid
  | mock
deriving DecidableEq, Repr

/-- Failure of the primary toolchain call as observed by the catch block of
`analyzeDependencies`: either a typed `DotNetCliError` or an unknown thrown
value. -/
inductive CliFailure where
  | cliError (e : DotNetCliError)
  | unknown (message : String)
deriving DecidableEq, Repr

/-- Error raised by `analyzeDependencies`: the rethrown original toolchain
error, or the composite `DEPENDENCY_ANALYSIS_FAILED` error of
`createAnalysisError` embedding both underlying causes. -/
inductive AnalysisError where
  | cli (e : DotNetCliError)
  | composite (primary : CliFailure) (fallback : ProjectFileParser.ProjectFileError)
deriving DecidableEq, Repr

/-- `NuGetDependencyProvider.analyzeDependencies` as a function of the
outcomes of its three collaborators: the toolchain listing, the vulnerability
scan (consulted only on toolchain success when `includeVulnerabilities`), and
the manifest fallback parse. Returns the package list together with the
`analysisMethod` written to `lastAnalysisMethod`. -/
def analyzeDependencies (includeVulnerabilities : Bool)
    (cliResult : Except CliFailure (List NuGetPackage))
    (vulnScanResult : Except DotNetCliError (List NuGetPackage))
    (parseResult : Except ProjectFileParser.ProjectFileError (List NuGetPackage)) :
    Except AnalysisError (List NuGetPackage × AnalysisMethod) :=
  match cliResult with
  | .ok packages =>
    let merged :=
      if includeVulnerabilities then
        match vulnScanResult with
        | .ok vulnerablePackages => mergeVulnerabilityData packages vulnerablePackages
        | .error _ => packages
      else packages
    .ok (merged, .dotnetCli)
  | .error (.cliError e) =>
    if e.recoverable || e.code = DotNetCliErrorCodes.SDK_NOT_FOUND then
      match parseResult with
      | .ok packages => .ok (packages, .projectFile)
      | .error fallbackError => .error (.composite (.cliError e) fallbackError)
    else .error (.cli e)
  | .error (.unknown m) =>
    match parseResult with
    | .ok packages => .ok (packages, .projectFile)
    | .error fallbackError => .error (.composite (.unknown m) fallbackError)

/-- The `AnalysisMetadata` interface (timestamp in milliseconds). -/
structure AnalysisMetadata where
  timestamp : Nat
  analysisMethod : AnalysisMethod
  framework : Option String := none
  sdkVersion : Option String := none
  hasTransitiveDependencies : Bool
  hasVulnerabilityData : Bool
deriving DecidableEq, Repr

/-- `NuGetDependencyProvider.createAnalysisMetadata`: the `_method` parameter
is ignored by the source; the recorded method is the mutable field
`lastAnalysisMethod` written by `analyzeDependencies` just before. -/
def createAnalysisMetadata (lastAnalysisMethod : AnalysisMethod)
    (timestamp : Nat) (sdkVersion framework : Option String)
    (hasTransitive hasVulnerabilityData : Bool) : AnalysisMetadata :=
  { timestamp := timestamp,
    analysisMethod := lastAnalysisMethod,
    framework := framework,
    sdkVersion := sdkVersion,
    hasTransitiveDependencies := hasTransitive,
    hasVulnerabilityData := hasVulnerabilityData }

/-- Composition `getDependencies` performs: run `analyzeDependencies` (without
vulnerabilities), then build the metadata from the method it recorded. -/
def getDependenciesOutcome
    (cliResult : Except CliFailure (List NuGetPackage))
    (vulnScanResult : Except DotNetCliError (List NuGetPackage))
    (parseResult : Except ProjectFileParser.ProjectFileError (List NuGetPackage))
    (timestamp : Nat) (sdkVersion framework : Option String) :
    Except AnalysisError (List NuGetPackage × AnalysisMetadata) :=
  match analyzeDependencies false cliResult vulnScanResult parseResult with
  | .error e => .error e
  | .ok (packages, method) =>
    .ok (packages, createAnalysisMetadata method timestamp sdkVersion framework false false)

end NuGetDependencyProvider

/-! ## CacheManager (`cacheManager.ts`, first class in the file)

The JS `Map` backing the in-memory tier and the cache directory backing the
persistent tier are both modelled as association lists keyed by `String`,
with `Map.set` replacing in place and `Map.delete` and `fs.unlink` removing
the entry. `new Date()` is a `Nat` millisecond timestamp `now` passed
explicitly to each operation. -/

/-- First-match lookup, as JS `Map.get` and `fs.existsSync` plus read. -/
def mapGet {β : Type} (key : String) : List (String × β) → Option β
  | [] => none
  | (k, v) :: rest => if k = key then some v else mapGet key rest

/-- JS `Map.set`: replace the entry in place when the key exists, else
append. -/
def mapSet {β : Type} (key : String) (value : β) : List (String × β) → List (String × β)
  | [] => [(key, value)]
  | (k, v) :: rest =>
    if k = key then (key, value) :: rest else (k, v) :: mapSet key value rest

/-- JS `Map.delete` and `fs.unlink`: remove the entry with the key. -/
def mapDelete {β : Type} (key : String) (st : List (String × β)) : List (String × β) :=
  st.filter (fun kv => kv.1 ≠ key)

namespace CacheManager

/-- The `CacheEntry<T>` interface, timestamps in milliseconds. -/
structure CacheEntry (α : Type) where
  data : α
  timestamp : Nat
  expiresAt : Nat
  key : String
deriving DecidableEq, Repr

/-- In-memory cache state: the `cache` map. -/
def State (α : Type) : Type := List (String × CacheEntry α)

/-- Constant `defaultTtl` (30 minutes in milliseconds). -/
def defaultTtl : Nat := 30 * 60 * 1000

/-- Constant `vulnerabilityTtl` (24 hours in milliseconds). -/
def vulnerabilityTtl : Nat := 24 * 60 * 60 * 1000

/-- `CacheManager.set`: create an entry expiring `ttl` (default `defaultTtl`)
milliseconds from now. -/
def set {α : Type} (st : State α) (now : Nat) (key : String) (data : α)
    (ttl : Option Nat) : State α :=
  mapSet key
    { data := data, timestamp := now, expiresAt := now + ttl.getD defaultTtl, key := key } st

/-- `CacheManager.get`: a missing key is `null`; an entry past its expiry is
lazily evicted and `null` returned; otherwise the data. Returns the observed
value and the updated state. -/
def get {α : Type} (st : State α) (now : Nat) (key : String) :
    Option α × State α :=
  match mapGet key st with
  | none => (none, st)
  | some entry =>
    if now > entry.expiresAt then (none, mapDelete key st)
    else (some entry.data, st)

/-- `CacheManager.has`: like `get` but reporting presence, with the same lazy
eviction of expired entries. -/
def has {α : Type} (st : State α) (now : Nat) (key : String) :
    Bool × State α :=
  match mapGet key st with
  | none => (false, st)
  | some entry =>
    if now > entry.expiresAt then (false, mapDelete key st)
    else (true, st)

/-! ### Persistent vulnerability cache -/

/-- The `VulnerabilityInfo` interface stored in the persistent cache. -/
structure VulnerabilityInfo where
  packageName : String
  packageVersion : String
  severity : String
  title : String
  description : Option String := none
  advisoryUrl : Option String := none
deriving DecidableEq, Repr

/-- Shape of a well-formed persisted cache file
`{ projectPath, vulnerabilities, timestamp, expiresAt }`. -/
structure VulnCacheData where
  projectPath : String
  vulnerabilities : List VulnerabilityInfo
  timestamp : Nat
  expiresAt : Nat
deriving DecidableEq, Repr

/-- A file in the cache directory: either well-formed JSON (round-tripping
`JSON.stringify` and `JSON.parse`, which are library code, is modelled as the
identity) or corrupt content on which `JSON.parse` throws. -/
inductive PersistedFile where
  | valid (data : VulnCacheData)
  | corrupt
deriving DecidableEq, Repr

/-- The cache directory: file name to content. -/
def Store : Type := List (String × PersistedFile)

/-- One step of `simpleHash`, with JS 32-bit semantics: `hash << 5` wraps to a
signed 32-bit integer, the subtraction and addition are exact, and `& hash`
wraps again. -/
def toInt32 (n : Int) : Int :=
  let m := n.emod 4294967296
  if m ≥ 2147483648 then m - 4294967296 else m

/-- `CacheManager.simpleHash` over the UTF-16 code units of the path (the
paths involved are ASCII, where code units and code points agree). -/
def simpleHash (s : String) : Int :=
  s.data.foldl (fun hash c => toInt32 (toInt32 (hash * 32) - hash + c.toNat)) 0

/-- Digit of JS `Number.prototype.toString(36)`. -/
def base36Digit (n : Nat) : Char :=
  if n < 10 then Char.ofNat (48 + n) else Char.ofNat (87 + n)

/-- Fuelled base-36 digit expansion (most significant first). -/
def base36Aux : Nat → Nat → List Char
  | _, 0 => []
  | 0, _ => []
  | fuel + 1, n + 1 => base36Aux fuel ((n + 1) / 36) ++ [base36Digit ((n + 1) % 36)]

/-- JS `Math.abs(hash).toString(36)`. -/
def natToBase36 (n : Nat) : String :=
  if n = 0 then "0" else String.mk (base36Aux n n)

/-- Node `path.basename` applied with the `.csproj` suffix argument: the last
path component with a trailing `.csproj` removed. -/
def pathBasenameCsproj (p : String) : String :=
  let comps := p.data.splitOnP (fun c => c = '/' || c = '\\')
  let base := comps.getLastD []
  if (".csproj".data).isSuffixOf base then String.mk (base.take (base.length - 7))
  else String.mk base

/-- `CacheManager.getVulnerabilityCacheKey`: `vuln_<name>_<hash>` from the
normalized path and the project base name. Node `path.normalize` is modelled
as the identity (the embedding works with already normalized paths). -/
def getVulnerabilityCacheKey (projectPath : String) : String :=
  "vuln_" ++ pathBasenameCsproj projectPath ++ "_" ++
    natToBase36 (simpleHash projectPath).natAbs

/-- File name (within the cache directory) of the persisted entry for a
project. -/
def cacheFileName (projectPath : String) : String :=
  getVulnerabilityCacheKey projectPath ++ ".json"

/-- `CacheManager.cacheVulnerabilityData`: whole-file overwrite with the list,
the write timestamp and an expiry 24 hours out. -/
def cacheVulnerabilityData (store : Store) (now : Nat) (projectPath : String)
    (vulnerabilities : List VulnerabilityInfo) : Store :=
  mapSet (cacheFileName projectPath)
    (.valid { projectPath := projectPath, vulnerabilities := vulnerabilities,
              timestamp := now, expiresAt := now + vulnerabilityTtl }) store

/-- `CacheManager.getCachedVulnerabilityData`: a missing file is `null`; a
corrupt file makes `JSON.parse` throw, which the catch block turns into
`null`; a file past its recorded expiry is opportunistically deleted and
`null` returned; otherwise the stored list. Returns the observed value and
the updated cache directory. -/
def getCachedVulnerabilityData (store : Store) (now : Nat) (projectPath : String) :
    Option (List VulnerabilityInfo) × Store :=
  match mapGet (cacheFileName projectPath) store with
  | none => (none, store)
  | some .corrupt => (none, store)
  | some (.valid cacheData) =>
    if now > cacheData.expiresAt then (none, mapDelete (cacheFileName projectPath) store)
    else (some cacheData.vulnerabilities, store)

end CacheManager

/-! ## Concrete inputs used by counterexamples and witnesses -/

/-- A top-level JSON entry for package `A` at version `1.0.0`. -/
def exEntryA : DotNetCliService.JsonPackageEntry :=
  { id := some "A", requestedVersion := some "1.0.0", resolvedVersion := some "1.0.0" }

/-- Decoded toolchain JSON listing the same package under two target
frameworks (ordinary multi-targeting output). -/
def exMultiFrameworkOutput : DotNetCliService.JsonListOutput :=
  { projects := some [{ frameworks := some [
      { framework := some "net8.0", topLevelPackages := some [exEntryA] },
      { framework := some "net9.0", topLevelPackages := some [exEntryA] }] }] }

/-- Package `A@1.0.0`. -/
def exPkgA : NuGetPackage := { id := "A", version := "1.0.0" }

/-- A second occurrence of the `A@1.0.0` key with a different framework. -/
def exPkgA2 : NuGetPackage := { id := "A", version := "1.0.0", framework := some "x" }

/-- Package `B@2.0.0`. -/
def exPkgB : NuGetPackage := { id := "B", version := "2.0.0" }

/-- A package list with a duplicate `(id, version)` key. -/
def exDupList : List NuGetPackage := [exPkgA, exPkgB, exPkgA2]

/-- Two direct packages with unrelated names (no heuristic rule applies, no
transitive package exists). -/
def exTwoDirect : List NuGetPackage :=
  [{ id := "Alpha", version := "1.0.0" }, { id := "Beta", version := "2.0.0" }]

/-- One direct and one transitive package with unrelated names. -/
def exOneDirectOneTransitive : List NuGetPackage :=
  [{ id := "Alpha", version := "1.0.0" },
   { id := "Beta", version := "2.0.0", isTransitive := true }]

/-- A vulnerability already present before the merge. -/
def exVulnOld : Vulnerability := { id := "V1", severity := .Low, title := "old" }

/-- A vulnerability delivered by the scan. -/
def exVulnNew : Vulnerability := { id := "V2", severity := .High, title := "new" }

/-- A resolved package that already carries a vulnerability list. -/
def exPkgWithVuln : NuGetPackage := { exPkgA with vulnerabilities := some [exVulnOld] }

/-- The scan result for the same package id with a different vulnerability
list. -/
def exScanPkg : NuGetPackage := { exPkgA with vulnerabilities := some [exVulnNew] }

/-- A command result whose output marks the project as missing. -/
def exProjectNotFoundResult : CommandResult :=
  { stdout := "", stderr := "error: could not find project X", exitCode := 1 }

/-- A non-zero scan exit whose output contains the no-findings text. -/
def exNoVulnResult : CommandResult :=
  { stdout := "No vulnerable packages found", stderr := "", exitCode := 1 }

/-- A non-zero scan exit with an unclassified failure message. -/
def exScanFailureResult : CommandResult :=
  { stdout := "", stderr := "some random failure", exitCode := 1 }

/-- An SDK-not-found toolchain error (as created by the `listPackages` catch
block when the binary is missing). -/
def exSdkNotFoundError : DotNetCliError :=
  { code := DotNetCliErrorCodes.SDK_NOT_FOUND,
    userMessage := "The .NET SDK is not installed or not accessible. Please install the .NET SDK to analyze dependencies.",
    technicalDetails := some "Command not found: spawn dotnet ENOENT",
    category := .system, recoverable := false }

/-- A persisted vulnerability record. -/
def exVulnInfo : CacheManager.VulnerabilityInfo :=
  { packageName := "A", packageVersion := "1.0.0", severity := "High", title := "t" }

/-- A table-format output line plus a non-package line. -/
def exTableOutput : String := "> Newtonsoft.Json 13.0.1 13.0.1\nProject reference"

/-- The package parsed from `exTableOutput`. -/
def exTablePkg : NuGetPackage :=
  { id := "Newtonsoft.Json", version := "13.0.1", resolved := some "13.0.1" }

/-! ## Association-list lemmas shared by the cache claims -/

/-- Looking up the key just written by `mapSet` finds the written value. -/
theorem mapGet_mapSet_self {β : Type} (key : String) (value : β) :
    ∀ st : List (String × β), mapGet key (mapSet key value st) = some value := by
  intro st
  induction st with
  | nil => simp [mapSet, mapGet]
  | cons kv rest ih =>
    by_cases h : kv.1 = key
    · simp [mapSet, mapGet, h]
    · simpa [mapSet, mapGet, h] using ih

/-- Looking up a key just removed by `mapDelete` finds nothing. -/
theorem mapGet_mapDelete_self {β : Type} (key : String) :
    ∀ st : List (String × β), mapGet key (mapDelete key st) = none := by
  intro st
  induction st with
  | nil => simp [mapDelete, mapGet]
  | cons kv rest ih =>
    by_cases h : kv.1 = key
    · simpa [mapDelete, mapGet, h] using ih
    · simpa [mapDelete, mapGet, h] using ih

/-! ## Claim C8 -/

/-- Claim C8: for every key, value and TTL, a `set` followed by an immediate
`get` returns the value; once strictly more than the TTL has elapsed since
the `set`, `get` returns `none` and deletes the entry, so a subsequent `has`
on the resulting state returns `false`. -/
theorem claim_C8 (α : Type) (st : CacheManager.State α) (now : Nat) (key : String)
    (v : α) (t now' : Nat) (h : now + t < now') :
    (CacheManager.get (CacheManager.set st now key v (some t)) now key).1 = some v ∧
    (CacheManager.get (CacheManager.set st now key v (some t)) now' key).1 = none ∧
    mapGet key (CacheManager.get (CacheManager.set st now key v (some t)) now' key).2 = none ∧
    (CacheManager.has (CacheManager.get (CacheManager.set st now key v (some t)) now' key).2 now' key).1 = false := by
  have hget := mapGet_mapSet_self key
    ({ data := v, timestamp := now, expiresAt := now + t, key := key } : CacheManager.CacheEntry α) st
  have hfresh : ¬ now > now + t := by omega
  have hstale : now' > now + t := h
  refine ⟨?_, ?_, ?_, ?_⟩
  · simp [CacheManager.get, CacheManager.set, hget, hfresh]
  · simp [CacheManager.get, CacheManager.set, hget, hstale]
  · simp [CacheManager.get, CacheManager.set, hget, hstale, mapGet_mapDelete_self]
  · simp [CacheManager.get, CacheManager.has, CacheManager.set, hget, hstale, mapGet_mapDelete_self]

/-- Witness for C8 at a concrete key, value, TTL and pair of read times. -/
theorem claim_C8_witness :
    (CacheManager.get (CacheManager.set ([] : CacheManager.State Nat) 0 "k" 5 (some 10)) 0 "k").1 = some 5 ∧
    (CacheManager.get (CacheManager.set ([] : CacheManager.State Nat) 0 "k" 5 (some 10)) 11 "k").1 = none ∧
    mapGet "k" (CacheManager.get (CacheManager.set ([] : CacheManager.State Nat) 0 "k" 5 (some 10)) 11 "k").2 = none ∧
    (CacheManager.has (CacheManager.get (CacheManager.set ([] : CacheManager.State Nat) 0 "k" 5 (some 10)) 11 "k").2 11 "k").1 = false :=
  claim_C8 Nat [] 0 "k" 5 10 11 (by norm_num)

/-! ## Claim C9 -/

/-- Claim C9: writing a vulnerability list to the persistent per-project cache
and reading it back at or before the recorded 24-hour expiry returns the same
list; reading strictly after the expiry returns `none` and deletes the file;
reading a missing file or a corrupt (unparseable) file returns `none` with the
store untouched. The read path is a total function into `Option`, so no error
is ever raised. -/
theorem claim_C9 (store : CacheManager.Store) (now : Nat) (projectPath : String)
    (vulns : List CacheManager.VulnerabilityInfo) (now' : Nat) :
    (now' ≤ now + CacheManager.vulnerabilityTtl →
      CacheManager.getCachedVulnerabilityData
          (CacheManager.cacheVulnerabilityData store now projectPath vulns) now' projectPath
        = (some vulns, CacheManager.cacheVulnerabilityData store now projectPath vulns)) ∧
    (now + CacheManager.vulnerabilityTtl < now' →
      (CacheManager.getCachedVulnerabilityData
          (CacheManager.cacheVulnerabilityData store now projectPath vulns) now' projectPath).1 = none ∧
      mapGet (CacheManager.cacheFileName projectPath)
        (CacheManager.getCachedVulnerabilityData
          (CacheManager.cacheVulnerabilityData store now projectPath vulns) now' projectPath).2 = none) ∧
    (mapGet (CacheManager.cacheFileName projectPath) store = none →
      CacheManager.getCachedVulnerabilityData store now' projectPath = (none, store)) ∧
    (mapGet (CacheManager.cacheFileName projectPath) store = some .corrupt →
      CacheManager.getCachedVulnerabilityData store now' projectPath = (none, store)) := by
  have hget := mapGet_mapSet_self (CacheManager.cacheFileName projectPath)
    (CacheManager.PersistedFile.valid
      { projectPath := projectPath, vulnerabilities := vulns,
        timestamp := now, expiresAt := now + CacheManager.vulnerabilityTtl }) store
  refine ⟨?_, ?_, ?_, ?_⟩
  · intro hin
    have hlive : ¬ now' > now + CacheManager.vulnerabilityTtl := by omega
    simp [CacheManager.getCachedVulnerabilityData, CacheManager.cacheVulnerabilityData, hget, hlive]
  · intro hout
    refine ⟨?_, ?_⟩
    · simp [CacheManager.getCachedVulnerabilityData, CacheManager.cacheVulnerabilityData, hget, hout]
    · simp [CacheManager.getCachedVulnerabilityData, CacheManager.cacheVulnerabilityData, hget, hout,
        mapGet_mapDelete_self]
  · intro hmiss
    simp [CacheManager.getCachedVulnerabilityData, hmiss]
  · intro hcorrupt
    simp [CacheManager.getCachedVulnerabilityData, hcorrupt]

/-- Witness for C9: a concrete write read back within TTL, after TTL, and the
missing-file read. -/
theorem claim_C9_witness :
    CacheManager.getCachedVulnerabilityData
        (CacheManager.cacheVulnerabilityData [] 0 "proj.csproj" [exVulnInfo]) 1000 "proj.csproj"
      = (some [exVulnInfo], CacheManager.cacheVulnerabilityData [] 0 "proj.csproj" [exVulnInfo]) ∧
    (CacheManager.getCachedVulnerabilityData
        (CacheManager.cacheVulnerabilityData [] 0 "proj.csproj" [exVulnInfo]) 86400001 "proj.csproj").1 = none ∧
    CacheManager.getCachedVulnerabilityData [] 5 "proj.csproj" = (none, []) :=
  ⟨(claim_C9 [] 0 "proj.csproj" [exVulnInfo] 1000).1
      (by norm_num [CacheManager.vulnerabilityTtl]),
   ((claim_C9 [] 0 "proj.csproj" [exVulnInfo] 86400001).2.1
      (by norm_num [CacheManager.vulnerabilityTtl])).1,
   (claim_C9 [] 0 "proj.csproj" [] 5).2.2.1 rfl⟩

/-! ## Claim C2 -/

/-- Claim C2: when the toolchain listing fails with an error classified
`sdk-not-found` and the manifest parses successfully, the resolver returns the
manifest-derived package list, and the analysis metadata built afterwards
records the project-file (manifest) strategy as the analysis method. -/
theorem claim_C2 (e : DotNetCliError) (packages : List NuGetPackage)
    (vulnScan : Except DotNetCliError (List NuGetPackage))
    (timestamp : Nat) (sdkVersion framework : Option String)
    (h : e.code = DotNetCliErrorCodes.SDK_NOT_FOUND) :
    NuGetDependencyProvider.getDependenciesOutcome (.error (.cliError e)) vulnScan
        (.ok packages) timestamp sdkVersion framework
      = .ok (packages, NuGetDependencyProvider.createAnalysisMetadata .projectFile
          timestamp sdkVersion framework false false) ∧
    (NuGetDependencyProvider.createAnalysisMetadata .projectFile
        timestamp sdkVersion framework false false).analysisMethod = .projectFile := by
  constructor
  · simp [NuGetDependencyProvider.getDependenciesOutcome,
      NuGetDependencyProvider.analyzeDependencies, h]
  · rfl

/-- Witness for C2 at the concrete SDK-not-found error and a one-package
manifest result. -/
theorem claim_C2_witness :
    NuGetDependencyProvider.getDependenciesOutcome (.error (.cliError exSdkNotFoundError))
        (.ok []) (.ok [exPkgA]) 0 none none
      = .ok ([exPkgA], NuGetDependencyProvider.createAnalysisMetadata .projectFile
          0 none none false false) ∧
    (NuGetDependencyProvider.createAnalysisMetadata .projectFile
        0 none none false false).analysisMethod = .projectFile :=
  claim_C2 exSdkNotFoundError [exPkgA] (.ok []) 0 none none rfl

/-! ## Claim C3 -/

/-- Helper for C3: an error classified `project-not-found` by
`handleListPackagesError` is non-recoverable. -/
theorem handleListPackagesError_projectNotFound_not_recoverable
    (result : CommandResult) (projectPath : String)
    (h : (DotNetCliService.handleListPackagesError result projectPath).code
      = DotNetCliErrorCodes.PROJECT_NOT_FOUND) :
    (DotNetCliService.handleListPackagesError result projectPath).recoverable = false := by
  unfold DotNetCliService.handleListPackagesError DotNetCliService.createDotNetError at h ⊢
  split_ifs at h ⊢ <;>
    simp_all [DotNetCliErrorCodes.PROJECT_NOT_FOUND, DotNetCliErrorCodes.PROJECT_INVALID,
      DotNetCliErrorCodes.PERMISSION_DENIED, DotNetCliErrorCodes.NETWORK_ERROR,
      DotNetCliErrorCodes.LIST_PACKAGES_FAILED]

/-- Claim C3: when the toolchain listing fails with an error classified
`project-not-found`, the resolver never attempts the manifest fallback (the
outcome is the same whatever the fallback parse would have produced) and the
error surfaced is the original toolchain error, not a fallback or composite
error. -/
theorem claim_C3 (result : CommandResult) (projectPath : String)
    (vulnScan : Except DotNetCliError (List NuGetPackage))
    (parseResult : Except ProjectFileParser.ProjectFileError (List NuGetPackage))
    (h : (DotNetCliService.handleListPackagesError result projectPath).code
      = DotNetCliErrorCodes.PROJECT_NOT_FOUND) :
    NuGetDependencyProvider.analyzeDependencies false
        (.error (.cliError (DotNetCliService.handleListPackagesError result projectPath)))
        vulnScan parseResult
      = .error (.cli (DotNetCliService.handleListPackagesError result projectPath)) := by
  have hrec := handleListPackagesError_projectNotFound_not_recoverable result projectPath h
  have hcode : ¬ (DotNetCliService.handleListPackagesError result projectPath).code
      = DotNetCliErrorCodes.SDK_NOT_FOUND := by
    rw [h]
    decide
  simp [NuGetDependencyProvider.analyzeDependencies, hrec, hcode]

/-- Witness for C3: a concrete could-not-find-project output, classified and
fed to the resolver together with a fallback parse that would have succeeded;
the original error is still the one surfaced. -/
theorem claim_C3_witness :
    (DotNetCliService.handleListPackagesError exProjectNotFoundResult "p.csproj").code
      = DotNetCliErrorCodes.PROJECT_NOT_FOUND ∧
    NuGetDependencyProvider.analyzeDependencies false
        (.error (.cliError (DotNetCliService.handleListPackagesError exProjectNotFoundResult "p.csproj")))
        (.ok []) (.ok [exPkgA])
      = .error (.cli (DotNetCliService.handleListPackagesError exProjectNotFoundResult "p.csproj")) :=
  ⟨by decide, claim_C3 exProjectNotFoundResult "p.csproj" (.ok []) (.ok [exPkgA]) (by decide)⟩

/-! ## Claim C4 -/

/-- Claim C4: when the vulnerability-scan subcommand exits non-zero, the
listing returns the valid empty result exactly when the combined
stdout+stderr contains one of the textual no-vulnerabilities indications;
every other non-zero exit raises a classified error (project-not-found,
network, permission-denied or the scan-failed catch-all), never an empty
result. -/
theorem claim_C4 (result : CommandResult) (parsedOutput : List NuGetPackage)
    (projectPath : String) (h : result.exitCode ≠ 0) :
    (DotNetCliService.noVulnerabilitiesTextMatch (DotNetCliService.combinedOutput result) = true →
      DotNetCliService.listVulnerablePackagesOutcome result parsedOutput projectPath = .ok []) ∧
    (DotNetCliService.noVulnerabilitiesTextMatch (DotNetCliService.combinedOutput result) = false →
      ∃ e : DotNetCliError,
        DotNetCliService.listVulnerablePackagesOutcome result parsedOutput projectPath = .error e ∧
        (e.code = DotNetCliErrorCodes.PROJECT_NOT_FOUND ∨
         e.code = DotNetCliErrorCodes.NETWORK_ERROR ∨
         e.code = DotNetCliErrorCodes.PERMISSION_DENIED ∨
         e.code = DotNetCliErrorCodes.VULNERABILITY_SCAN_FAILED)) := by
  constructor
  · intro hmatch
    simp [DotNetCliService.listVulnerablePackagesOutcome, h,
      DotNetCliService.handleVulnerabilityScanError, hmatch]
  · intro hnomatch
    simp only [DotNetCliService.listVulnerablePackagesOutcome, h,
      DotNetCliService.handleVulnerabilityScanError, hnomatch, if_neg, ite_false,
      Bool.false_eq_true, reduceIte]
    split_ifs <;>
      exact ⟨_, rfl, by simp [DotNetCliService.createDotNetError]⟩

/-- Witness for C4: the concrete no-findings scan exit yields the empty list,
and a concrete unclassifiable scan exit yields a classified error. -/
theorem claim_C4_witness :
    DotNetCliService.listVulnerablePackagesOutcome exNoVulnResult [] "p" = .ok [] ∧
    (∃ e : DotNetCliError,
      DotNetCliService.listVulnerablePackagesOutcome exScanFailureResult [] "p" = .error e ∧
      (e.code = DotNetCliErrorCodes.PROJECT_NOT_FOUND ∨
       e.code = DotNetCliErrorCodes.NETWORK_ERROR ∨
       e.code = DotNetCliErrorCodes.PERMISSION_DENIED ∨
       e.code = DotNetCliErrorCodes.VULNERABILITY_SCAN_FAILED)) :=
  ⟨(claim_C4 exNoVulnResult [] "p" (by decide)).1 (by decide),
   (claim_C4 exScanFailureResult [] "p" (by decide)).2 (by decide)⟩

/-! ## Claim C5 -/

/-- Claim C5: severity normalization is a total function on strings (it never
throws by construction): the result depends only on the lowercased, trimmed
input, `medium` maps to `Moderate`, `critical`, `high`, `moderate` and `low`
map to the corresponding enum value, and every unrecognized input (the empty
string included) maps to `Low`. -/
theorem claim_C5 (s : String) :
    (strTrim (strLower s) = "critical" → DotNetCliService.normalizeSeverity s = .Critical) ∧
    (strTrim (strLower s) = "high" → DotNetCliService.normalizeSeverity s = .High) ∧
    (strTrim (strLower s) = "moderate" ∨ strTrim (strLower s) = "medium" →
      DotNetCliService.normalizeSeverity s = .Moderate) ∧
    (strTrim (strLower s) = "low" → DotNetCliService.normalizeSeverity s = .Low) ∧
    (strTrim (strLower s) ∉ (["critical", "high", "moderate", "medium", "low"] : List String) →
      DotNetCliService.normalizeSeverity s = .Low) := by
  by_cases hs : s = ""
  · subst hs
    refine ⟨?_, ?_, ?_, ?_, ?_⟩ <;> intro h
    · exact absurd h (by decide)
    · exact absurd h (by decide)
    · exact absurd h (by decide)
    · rfl
    · rfl
  · refine ⟨?_, ?_, ?_, ?_, ?_⟩ <;> intro h
    · simp [DotNetCliService.normalizeSeverity, hs, h]
    · simp [DotNetCliService.normalizeSeverity, hs, h]
    · rcases h with h | h <;> simp [DotNetCliService.normalizeSeverity, hs, h]
    · simp [DotNetCliService.normalizeSeverity, hs, h]
    · simp only [List.mem_cons, List.not_mem_nil, or_false, not_or] at h
      obtain ⟨h1, h2, h3, h4, h5⟩ := h
      simp [DotNetCliService.normalizeSeverity, hs, h1, h2, h3, h4, h5]

/-- Witness for C5 across casings, the `medium` synonym, whitespace, the empty
string and an unrecognized value. -/
theorem claim_C5_witness :
    DotNetCliService.normalizeSeverity "CriTiCal" = .Critical ∧
    DotNetCliService.normalizeSeverity "HIGH" = .High ∧
    DotNetCliService.normalizeSeverity "high" = .High ∧
    DotNetCliService.normalizeSeverity " Medium " = .Moderate ∧
    DotNetCliService.normalizeSeverity "moderate" = .Moderate ∧
    DotNetCliService.normalizeSeverity "low" = .Low ∧
    DotNetCliService.normalizeSeverity "" = .Low ∧
    DotNetCliService.normalizeSeverity "banana" = .Low :=
  ⟨(claim_C5 "CriTiCal").1 (by decide),
   (claim_C5 "HIGH").2.1 (by decide),
   (claim_C5 "high").2.1 (by decide),
   (claim_C5 " Medium ").2.2.1 (Or.inr (by decide)),
   (claim_C5 "moderate").2.2.1 (Or.inl (by decide)),
   (claim_C5 "low").2.2.2.1 (by decide),
   (claim_C5 "").2.2.2.2 (by decide),
   (claim_C5 "banana").2.2.2.2 (by decide)⟩

/-! ## Claim C1 -/

/-- Helper: every package emitted by `dedupGo` has a key outside `seen`. -/
theorem dedupGo_key_not_seen (p : NuGetPackage) :
    ∀ (l : List NuGetPackage) (seen : List String),
      p ∈ ProjectFileParser.dedupGo seen l → pkgKey p ∉ seen := by
  intro l
  induction l with
  | nil => intro seen hp; simp [ProjectFileParser.dedupGo] at hp
  | cons q rest ih =>
    intro seen hp
    simp only [ProjectFileParser.dedupGo] at hp
    by_cases hc : seen.contains (q.id ++ "@" ++ q.version)
    · rw [if_pos hc] at hp
      exact ih seen hp
    · rw [if_neg hc] at hp
      rcases List.mem_cons.mp hp with hpq | hp

      · subst hpq
        intro habs
        exact hc (List.elem_eq_true_of_mem habs)
      · have := ih ((q.id ++ "@" ++ q.version) :: seen) hp
        exact fun habs => this (List.mem_cons_of_mem _ habs)

/-- Helper: the keys of the `dedupGo` output contain no duplicate. -/
theorem dedupGo_keys_nodup :
    ∀ (l : List NuGetPackage) (seen : List String),
      ((ProjectFileParser.dedupGo seen l).map pkgKey).Nodup := by
  intro l
  induction l with
  | nil => intro seen; simp [ProjectFileParser.dedupGo]
  | cons q rest ih =>
    intro seen
    simp only [ProjectFileParser.dedupGo]
    by_cases hc : seen.contains (q.id ++ "@" ++ q.version)
    · rw [if_pos hc]
      exact ih seen
    · rw [if_neg hc]
      refine List.Nodup.cons ?_ (ih _)
      intro habs
      rcases List.mem_map.mp habs with ⟨p, hp, hkey⟩
      have hnot := dedupGo_key_not_seen p rest ((q.id ++ "@" ++ q.version) :: seen) hp
      exact hnot (by rw [hkey]; exact List.mem_cons_self _ _)

/-- Helper: `dedupGo` only removes elements (its output is a sublist of its
input, so order is preserved and nothing new is invented). -/
theorem dedupGo_sublist :
    ∀ (l : List NuGetPackage) (seen : List String),
      (ProjectFileParser.dedupGo seen l).Sublist l := by
  intro l
  induction l with
  | nil => intro seen; simp [ProjectFileParser.dedupGo]
  | cons q rest ih =>
    intro seen
    simp only [ProjectFileParser.dedupGo]
    by_cases hc : seen.contains (q.id ++ "@" ++ q.version)
    · rw [if_pos hc]
      exact (ih seen).cons q
    · rw [if_neg hc]
      exact (ih _).cons₂ q

/-- Helper: every emitted package is the first element of the input carrying
its key. -/
theorem dedupGo_keeps_first (p : NuGetPackage) :
    ∀ (l : List NuGetPackage) (seen : List String),
      p ∈ ProjectFileParser.dedupGo seen l →
      l.find? (fun q => pkgKey q == pkgKey p) = some p := by
  intro l
  induction l with
  | nil => intro seen hp; simp [ProjectFileParser.dedupGo] at hp
  | cons q rest ih =>
    intro seen hp
    simp only [ProjectFileParser.dedupGo] at hp
    by_cases hc : seen.contains (q.id ++ "@" ++ q.version)
    · rw [if_pos hc] at hp
      have hnot := dedupGo_key_not_seen p rest seen hp
      have hineq : (pkgKey q == pkgKey p) = false := by
        rw [beq_eq_false_iff_ne]
        intro habs
        exact hnot (habs ▸ List.mem_of_elem_eq_true hc)
      rw [List.find?_cons_of_neg _ (by simp [hineq]), ih seen hp]
    · rw [if_neg hc] at hp
      rcases List.mem_cons.mp hp with hpq | hp
      · subst hpq
        exact List.find?_cons_of_pos _ (by simp)
      · have hnot := dedupGo_key_not_seen p rest ((q.id ++ "@" ++ q.version) :: seen) hp
        have hineq : (pkgKey q == pkgKey p) = false := by
          rw [beq_eq_false_iff_ne]
          intro habs
          exact hnot (habs ▸ List.mem_cons_self _ _)
        rw [List.find?_cons_of_neg _ (by simp [hineq]), ih _ hp]

/-- Counterexample to C1 as stated: the toolchain `listPackages` JSON path
performs no deduplication, so the decoded output of an ordinary
multi-targeting project (the same package under two frameworks) yields a
returned package list in which two entries share the `(id, version)` key. -/
theorem claim_C1_counterexample :
    ¬ ((DotNetCliService.parseJsonOutput exMultiFrameworkOutput).map pkgKey).Nodup := by
  decide

/-- Claim C1 as amended: the manifest parsing path deduplicates — after
`deduplicatePackages` (the final step of `parseProjectFile`) no two entries
share an `(id, version)` key, the output is a subsequence of the input, and
each emitted package is the first occurrence of its key; the toolchain JSON
path performs no such deduplication (see the counterexample). -/
theorem claim_C1 (packages : List NuGetPackage) :
    ((ProjectFileParser.deduplicatePackages packages).map pkgKey).Nodup ∧
    (ProjectFileParser.deduplicatePackages packages).Sublist packages ∧
    ∀ p ∈ ProjectFileParser.deduplicatePackages packages,
      packages.find? (fun q => pkgKey q == pkgKey p) = some p :=
  ⟨dedupGo_keys_nodup packages [],
   dedupGo_sublist packages [],
   fun p hp => dedupGo_keeps_first p packages [] hp⟩

/-- Witness for C1 on a concrete list with a duplicate key: the result keys
are unique and the surviving entry is the first occurrence. -/
theorem claim_C1_witness :
    ((ProjectFileParser.deduplicatePackages exDupList).map pkgKey).Nodup ∧
    exDupList.find? (fun q => pkgKey q == pkgKey exPkgA) = some exPkgA :=
  ⟨(claim_C1 exDupList).1,
   (claim_C1 exDupList).2.2 exPkgA (by decide)⟩

/-! ## Claim C7 -/

/-- Erases the only field the vulnerability merge may write. -/
def stripVulnerabilities (p : NuGetPackage) : NuGetPackage :=
  { p with vulnerabilities := none }

/-- Helper: assigning the vulnerabilities of the first id-match changes no
other field of any package (and neither length nor order). -/
theorem setVulnerabilitiesOnFirstMatch_frame (pid : String) (vs : List Vulnerability) :
    ∀ ps : List NuGetPackage,
      (NuGetDependencyProvider.setVulnerabilitiesOnFirstMatch ps pid vs).map stripVulnerabilities
        = ps.map stripVulnerabilities := by
  intro ps
  induction ps with
  | nil => rfl
  | cons p rest ih =>
    by_cases hid : p.id = pid
    · simp [NuGetDependencyProvider.setVulnerabilitiesOnFirstMatch, hid, stripVulnerabilities]
    · simp [NuGetDependencyProvider.setVulnerabilitiesOnFirstMatch, hid, ih]

/-- Counterexample to C7 as stated: merging is not only-if-absent — a package
whose `vulnerabilities` field is already set has it overwritten by the merge,
because the source only tests the vulnerable entry for a vulnerability array,
never the target package for absence. -/
theorem claim_C7_counterexample :
    exPkgWithVuln.vulnerabilities = some [exVulnOld] ∧
    (NuGetDependencyProvider.mergeVulnerabilityData [exPkgWithVuln] [exScanPkg]).map
        NuGetPackage.vulnerabilities = [some [exVulnNew]] ∧
    exVulnNew ≠ exVulnOld := by
  decide

/-- Claim C7 as amended: the merge matches packages by `id` and assigns the
vulnerability list of the vulnerable entry to the first matching package,
overwriting any existing value (not only when absent); every other field of
every package, the list length and the order are left unchanged. -/
theorem claim_C7 :
    (∀ packages vulnerablePackages : List NuGetPackage,
      (NuGetDependencyProvider.mergeVulnerabilityData packages vulnerablePackages).map
          stripVulnerabilities
        = packages.map stripVulnerabilities) ∧
    (∀ (p : NuGetPackage) (rest : List NuGetPackage) (pid : String)
        (vs : List Vulnerability), p.id = pid →
      NuGetDependencyProvider.setVulnerabilitiesOnFirstMatch (p :: rest) pid vs
        = { p with vulnerabilities := some vs } :: rest) := by
  constructor
  · intro packages vulnerablePackages
    induction vulnerablePackages generalizing packages with
    | nil => rfl
    | cons vp rest ih =>
      cases hv : vp.vulnerabilities with
      | none =>
        simp [NuGetDependencyProvider.mergeVulnerabilityData, List.foldl_cons, hv] at ih ⊢
        exact ih packages
      | some vs =>
        simp only [NuGetDependencyProvider.mergeVulnerabilityData, List.foldl_cons, hv] at ih ⊢
        rw [ih, setVulnerabilitiesOnFirstMatch_frame]
  · intro p rest pid vs hid
    simp [NuGetDependencyProvider.setVulnerabilitiesOnFirstMatch, hid]

/-- Witness for C7: the frame property and the overwriting assignment at the
concrete merge of the counterexample. -/
theorem claim_C7_witness :
    (NuGetDependencyProvider.mergeVulnerabilityData [exPkgWithVuln] [exScanPkg]).map
        stripVulnerabilities = [exPkgWithVuln].map stripVulnerabilities ∧
    NuGetDependencyProvider.setVulnerabilitiesOnFirstMatch [exPkgWithVuln] "A" [exVulnNew]
      = [{ exPkgWithVuln with vulnerabilities := some [exVulnNew] }] :=
  ⟨claim_C7.1 [exPkgWithVuln] [exScanPkg],
   claim_C7.2 exPkgWithVuln [] "A" [exVulnNew] rfl⟩

/-! ## Claim C10 -/

/-- Helper: any package produced by the tabular line parser comes from a line
whose trimmed form starts with the `>` marker, and is direct. -/
theorem parseTableLine_mem (line : String) (p : NuGetPackage)
    (hp : p ∈ DotNetCliService.parseTableLine line) :
    strStartsWith (strTrim line) ">" = true ∧ p.isTransitive = false ∧ p.depth = 0 := by
  by_cases hstart : strStartsWith (strTrim line) ">" = true
  · simp only [DotNetCliService.parseTableLine, hstart, if_true] at hp
    split at hp
    · split at hp
      · simp only [List.mem_singleton] at hp
        subst hp
        exact ⟨hstart, rfl, rfl⟩
      · simp at hp
    · simp at hp
  · simp only [DotNetCliService.parseTableLine, hstart, if_false, Bool.false_eq_true] at hp
    simp at hp

/-- Claim C10: every package produced by the tabular (non-JSON) fallback
parser of the toolchain output is marked direct (`isTransitive = false`,
`depth = 0`) — the parser takes no transitive option at all — and every
produced package comes from a line whose trimmed form begins with `>`. -/
theorem claim_C10 (output : String) (p : NuGetPackage)
    (hp : p ∈ DotNetCliService.parseTableOutput output) :
    p.isTransitive = false ∧ p.depth = 0 ∧
    ∃ line ∈ strSplitChar output '\n',
      strStartsWith (strTrim line) ">" = true ∧
      p ∈ DotNetCliService.parseTableLine line := by
  obtain ⟨line, hline, hmem⟩ := List.mem_flatMap.mp hp
  obtain ⟨hstart, htrans, hdepth⟩ := parseTableLine_mem line p hmem
  exact ⟨htrans, hdepth, line, hline, hstart, hmem⟩

/-- Witness for C10 on a concrete two-line tabular output. -/
theorem claim_C10_witness :
    exTablePkg.isTransitive = false ∧ exTablePkg.depth = 0 ∧
    ∃ line ∈ strSplitChar exTableOutput '\n',
      strStartsWith (strTrim line) ">" = true ∧
      exTablePkg ∈ DotNetCliService.parseTableLine line :=
  claim_C10 exTableOutput exTablePkg (by decide)

/-! ## Claim C6 -/

/-- Counterexample to C6 as stated: a package list with more than one package
(two direct packages with unrelated names) for which graph synthesis produces
no link at all: the heuristics only connect direct to transitive packages and
transitive ones among themselves, and the even-distribution fallback also
requires at least one package of each kind. -/
theorem claim_C6_counterexample :
    exTwoDirect.length > 1 ∧
    NuGetDependencyProvider.createSyntheticLinks exTwoDirect .dependencies = [] := by
  decide

/-- Helper: the head of a list is among the first `n` elements whenever
`1 ≤ n`. -/
theorem mem_take_cons_of_pos {α : Type} (a : α) (l : List α) (n : Nat) (h : 1 ≤ n) :
    a ∈ (a :: l).take n := by
  obtain ⟨k, rfl⟩ : ∃ k, n = k + 1 := ⟨n - 1, by omega⟩
  rw [List.take_succ_cons]
  exact List.mem_cons_self _ _

/-- Helper: with at least one direct and one transitive package, the
even-distribution fallback produces at least one link (the first direct
package is linked to a non-empty initial slice of the transitive list). -/
theorem createFallbackLinks_ne_nil (packages : List NuGetPackage)
    (mode : NuGetDependencyProvider.GraphMode)
    (hd : packages.filter (fun pkg => !pkg.isTransitive) ≠ [])
    (ht : packages.filter (fun pkg => pkg.isTransitive) ≠ []) :
    NuGetDependencyProvider.createFallbackLinks packages mode ≠ [] := by
  obtain ⟨d0, ds, hD⟩ := List.exists_cons_of_ne_nil hd
  obtain ⟨t0, ts, hT⟩ := List.exists_cons_of_ne_nil ht
  have hDpos : 0 < (packages.filter (fun pkg => !pkg.isTransitive)).length := by
    rw [hD]; simp
  have hTpos : 0 < (packages.filter (fun pkg => pkg.isTransitive)).length := by
    rw [hT]; simp
  simp only [NuGetDependencyProvider.createFallbackLinks]
  rw [if_pos (by simp [hDpos, hTpos])]
  apply List.ne_nil_of_mem
  apply List.mem_flatMap.mpr
  refine ⟨(0, d0), ?_, ?_⟩
  · rw [hD, List.enum_cons]
    exact List.mem_cons_self _ _
  · simp only [Nat.zero_mul, Nat.zero_add, List.drop_zero, Nat.sub_zero]
    apply List.mem_map.mpr
    refine ⟨t0, ?_, rfl⟩
    rw [hT]
    apply mem_take_cons_of_pos
    refine le_min ((Nat.one_le_div_iff hDpos).mpr ?_) (by simp)
    simp only [List.length_cons]
    omega

/-- Claim C6 as amended: for every package list containing at least one
direct and at least one transitive package, graph synthesis produces at least
one link — either a heuristic link, or, when the heuristics yield nothing,
an even-distribution fallback link; without a package of each kind (for
example a list of two direct packages) the synthesized graph can be
edge-less, as the counterexample shows. -/
theorem claim_C6 (packages : List NuGetPackage)
    (mode : NuGetDependencyProvider.GraphMode)
    (hd : ∃ p ∈ packages, p.isTransitive = false)
    (ht : ∃ p ∈ packages, p.isTransitive = true) :
    NuGetDependencyProvider.createSyntheticLinks packages mode ≠ [] := by
  obtain ⟨pd, hpd, hpdf⟩ := hd
  obtain ⟨pt, hpt, hptt⟩ := ht
  have hDne : packages.filter (fun pkg => !pkg.isTransitive) ≠ [] :=
    List.ne_nil_of_mem (List.mem_filter.mpr ⟨hpd, by simp [hpdf]⟩)
  have hTne : packages.filter (fun pkg => pkg.isTransitive) ≠ [] :=
    List.ne_nil_of_mem (List.mem_filter.mpr ⟨hpt, hptt⟩)
  have hne : pd ≠ pt := by
    intro h
    rw [h, hptt] at hpdf
    exact Bool.true_eq_false.mp hpdf
  have hlen : 1 < packages.length := by
    have hsub : ({pd, pt} : Finset NuGetPackage) ⊆ packages.toFinset := by
      intro x hx
      rcases Finset.mem_insert.mp hx with h | h
      · exact List.mem_toFinset.mpr (h ▸ hpd)
      · exact List.mem_toFinset.mpr ((Finset.mem_singleton.mp h) ▸ hpt)
    calc 1 < ({pd, pt} : Finset NuGetPackage).card := by rw [Finset.card_pair hne]; omega
      _ ≤ packages.toFinset.card := Finset.card_le_card hsub
      _ ≤ packages.length := packages.toFinset_card_le
  simp only [NuGetDependencyProvider.createSyntheticLinks]
  split
  · exact createFallbackLinks_ne_nil packages mode hDne hTne
  · rename_i hcond
    intro habs
    apply hcond
    rw [habs]
    simp [hlen]

/-- Witness for C6: one direct and one transitive unrelated package (no
heuristic applies, so the fallback is exercised) still yield a link. -/
theorem claim_C6_witness :
    NuGetDependencyProvider.createSyntheticLinks exOneDirectOneTransitive .dependencies ≠ [] :=
  claim_C6 exOneDirectOneTransitive .dependencies (by decide) (by decide)

end NuGetGraph
